import Mathlib

/-!
# Verification of the Oreon Pickup core (discovery, pairing, trust store)

A shallow embedding, in Lean 4, of the core of the `oreon-pickup` Python
package: the persistent trust store (`pickup_state.py`), the pairing
handshake (`pickup_net.py`: `handle_incoming_pairing`, `initiate_pairing`,
`generate_pairing_code`, the pairing-service lifecycle) and the
zeroconf discovery/advertisement lifecycle, together with theorems about
their behaviour.

Python JSON-decoded values are embedded as the inductive `PyVal`; Python
dicts become association lists with unique keys (`Dict`), whose update,
delete and merge operations mirror Python dict assignment, `del` and
`dict.update`.  The state file on disk is a `StateFile` (missing, corrupt,
or a parsed top-level JSON object).  I/O failure on write is modelled by a
boolean environment parameter `wOk` (`True` iff the `open`/`json.dump`
succeeds), and the network environment of the initiator by `NetOutcome`.
-/

namespace Pickup

/-- A Python value as produced by `json.loads` (strings, integers,
booleans, `None`, lists and string-keyed dicts).  `time.time()` timestamps
are modelled with the `int` constructor. -/
inductive PyVal where
  | str (s : String)
  | int (n : Int)
  | bool (b : Bool)
  | none
  | list (l : List PyVal)
  | dict (d : List (String × PyVal))

/-- A Python dict with string keys, as an association list (keys unique,
insertion-ordered, as in Python 3.7+). -/
abbrev Dict := List (String × PyVal)

/-- `d[k]` lookup returning `Option`: the value under the first matching
key. -/
def dget (d : Dict) (k : String) : Option PyVal :=
  match d with
  | [] => Option.none
  | (k', v) :: t => if k' = k then some v else dget t k

/-- `d[k] = v` assignment: replace the value of an existing key in place,
or append the new key at the end (Python dict insertion order). -/
def dset (d : Dict) (k : String) (v : PyVal) : Dict :=
  match d with
  | [] => [(k, v)]
  | (k', v') :: t => if k' = k then (k', v) :: t else (k', v') :: dset t k v

/-- `del d[k]`: remove the key.  On a well-formed dict (unique keys) this
removes exactly the one binding the way Python `del` does. -/
def ddel (d : Dict) (k : String) : Dict :=
  match d with
  | [] => []
  | (k', v') :: t => if k' = k then ddel t k else (k', v') :: ddel t k

/-- `a.update(e)`: fold each binding of `e` into `a` by assignment. -/
def dupdate (a e : Dict) : Dict :=
  e.foldl (fun acc p => dset acc p.1 p.2) a

/-- The keys of a dict are pairwise distinct (true of every dict obtained
from Python). -/
def keysNodup (d : Dict) : Prop :=
  (d.map Prod.fst).Nodup

/-- `isinstance(v, dict)`. -/
def PyVal.isDict : PyVal → Bool
  | .dict _ => true
  | _ => false

/-- Python `==` between an optional looked-up value and a `str` literal:
true exactly when the value is present, is a `str`, and the characters
agree (`str.__eq__` returns `NotImplemented`/`False` against every other
JSON-decodable type). -/
def pyEqStr (v : Option PyVal) (t : String) : Bool :=
  match v with
  | some (.str s) => s = t
  | _ => false

/-! ## `pickup_config.py` (canonical `oreon-pickup` module) -/

/-- `pickup_config.VERSION`. -/
def VERSION : String := "0.1.0"

/-- `pickup_config.DEFAULT_PORT`. -/
def DEFAULT_PORT : Int := 50309

/-- `pickup_config.PAIRING_TIMEOUT` (seconds). -/
def PAIRING_TIMEOUT : Int := 60

/-! ## `pickup_state.py`: the trust store -/

/-- `pickup_state.DEFAULT_STATE`. -/
def DEFAULT_STATE : Dict :=
  [ ("version", .int 1),
    ("schema_version", .str VERSION),
    ("applications", .list []),
    ("files", .list []),
    ("notifications", .list []),
    ("paired_devices", .dict []) ]

/-- The state file on disk: absent, unreadable/unparsable, or a parsed
top-level JSON object. -/
inductive StateFile where
  | missing
  | corrupt
  | doc (d : Dict)

/-- The `for key, default_value in DEFAULT_STATE.items()` loop of
`load_state`: insert a default for every essential key still missing. -/
def ensureKeys (defaults : Dict) (st : Dict) : Dict :=
  defaults.foldl (fun acc p => if (dget acc p.1).isNone then dset acc p.1 p.2 else acc) st

/-- `pickup_state.load_state`: default state when the file is missing or
unreadable/corrupt; otherwise `DEFAULT_STATE.copy()` updated with the
loaded document, then the ensure-essential-keys loop. -/
def load_state (f : StateFile) : Dict :=
  match f with
  | .missing => DEFAULT_STATE
  | .corrupt => DEFAULT_STATE
  | .doc d => ensureKeys DEFAULT_STATE (dupdate DEFAULT_STATE d)

/-- `pickup_state.write_state`: dump `st` to the file.  `IOError` (and any
other exception) is caught and logged, and the function returns normally;
`wOk` is the environment bit telling whether the write succeeded.  The
result is the new file content. -/
def write_state (wOk : Bool) (f : StateFile) (st : Dict) : StateFile :=
  if wOk then .doc st else f

/-- `pickup_state.get_paired_devices`: `load_state().get("paired_devices", {})`. -/
def get_paired_devices (f : StateFile) : PyVal :=
  (dget (load_state f) "paired_devices").getD (.dict [])

/-- `pickup_state.add_paired_device`.  Returns the Python-level outcome
(`some ()` = the call returns `None` normally, `Option.none` = an
exception escapes, which happens only when the loaded
`state["paired_devices"]` is not a dict so the nested item assignment
raises) together with the resulting file. -/
def add_paired_device (device_id : String) (device_info : PyVal)
    (wOk : Bool) (f : StateFile) : Option Unit × StateFile :=
  if device_id = "" ∨ device_info.isDict = false then
    (some (), f)
  else
    let st := load_state f
    let st := if (dget st "paired_devices").isNone
              then dset st "paired_devices" (.dict []) else st
    match dget st "paired_devices" with
    | some (.dict pd) =>
        (some (), write_state wOk f (dset st "paired_devices" (.dict (dset pd device_id device_info))))
    | _ => (Option.none, f)

/-- `pickup_state.remove_paired_device`.  Same outcome convention as
`add_paired_device`; when `state["paired_devices"]` exists but is not a
dict the membership test / `del` raises (modelled as the `none` outcome). -/
def remove_paired_device (device_id : String) (wOk : Bool) (f : StateFile) :
    Option Unit × StateFile :=
  let st := load_state f
  match dget st "paired_devices" with
  | some (.dict pd) =>
      if (dget pd device_id).isSome then
        (some (), write_state wOk f (dset st "paired_devices" (.dict (ddel pd device_id))))
      else
        (some (), f)
  | some _ => (Option.none, f)
  | Option.none => (some (), f)

/-- Lookup of a top-level key in the file content (`none` when there is no
parsed document). -/
def fileGet (f : StateFile) (k : String) : Option PyVal :=
  match f with
  | .doc d => dget d k
  | _ => Option.none

/-- The paired-devices dict a caller observes through
`get_paired_devices` (the `Load()` view of the trust store). -/
def pairedOf (f : StateFile) : Dict :=
  match get_paired_devices f with
  | .dict pd => pd
  | _ => []

/-- A state file is well formed when the document, if present, has unique
keys and stores its `paired_devices`, if any, as a dict. -/
def wfFile (f : StateFile) : Prop :=
  match f with
  | .doc d => keysNodup d ∧
      (dget d "paired_devices" = Option.none ∨
       ∃ pd, dget d "paired_devices" = some (.dict pd))
  | _ => True

/-! ## Python `str()` / decimal rendering -/

/-- The ASCII character of a decimal digit. -/
def digitChar (d : Nat) : Char := Char.ofNat (48 + d)

/-- Digits of `n`, most significant first, accumulated into `acc`
(the usual repeated-`divmod` rendering that `str(int)` performs).
Recursion is on a fuel bound so that the definition reduces inside the
kernel; `fuel > n` always suffices since the value shrinks by a factor
of ten per step. -/
def natStrAux (fuel n : Nat) (acc : List Char) : List Char :=
  match fuel with
  | 0 => acc
  | fuel + 1 =>
    if n < 10 then digitChar n :: acc
    else natStrAux fuel (n / 10) (digitChar (n % 10) :: acc)

/-- `str(n)` for a non-negative Python int. -/
def pyStrNat (n : Nat) : String := ⟨natStrAux (n + 1) n []⟩

/-- `str(i)` for a Python int. -/
def intStr (i : Int) : String :=
  if i < 0 then "-" ++ pyStrNat i.natAbs else pyStrNat i.natAbs

mutual

/-- `repr(v)` for a JSON-decodable Python value (string escaping inside
`repr` of a `str` is not modelled; no claim depends on it). -/
def pyRepr : PyVal → String
  | .str s => "'" ++ s ++ "'"
  | .int n => intStr n
  | .bool b => if b then "True" else "False"
  | .none => "None"
  | .list l => "[" ++ pyReprItems l ++ "]"
  | .dict d => "\x7b" ++ pyReprPairs d ++ "\x7d"

/-- Comma-separated `repr`s of list items. -/
def pyReprItems : List PyVal → String
  | [] => ""
  | [v] => pyRepr v
  | v :: rest => pyRepr v ++ ", " ++ pyReprItems rest

/-- Comma-separated `'key': repr(value)` entries of a dict. -/
def pyReprPairs : List (String × PyVal) → String
  | [] => ""
  | [(k, v)] => "'" ++ k ++ "': " ++ pyRepr v
  | (k, v) :: rest => "'" ++ k ++ "': " ++ pyRepr v ++ ", " ++ pyReprPairs rest

end

/-- `str(v)` (what an f-string interpolation performs): identity on `str`,
`repr`-like rendering otherwise. -/
def pyStr (v : PyVal) : String :=
  match v with
  | .str s => s
  | v => pyRepr v

/-! ## `pickup_net.py`: pairing code generation -/

/-- `pickup_net.generate_pairing_code` of the canonical `oreon-pickup`
module: `str(random.randint(1000, 9999))`.  The environment supplies `r`,
the value returned by `random.randint(1000, 9999)` (uniform on that
closed interval). -/
def generate_pairing_code (r : Nat) : String := pyStrNat r

/-- A string the canonical `generate_pairing_code` can return for some
value of `random.randint(1000, 9999)`. -/
def possibleCode (s : String) : Prop :=
  ∃ r, 1000 ≤ r ∧ r ≤ 9999 ∧ generate_pairing_code r = s

/-- `pickup_config.PAIRING_CODE_LENGTH` of the legacy `oreon_pickup`
module. -/
def PAIRING_CODE_LENGTH : Nat := 4

/-- `generate_pairing_code` of the legacy `oreon_pickup` module:
`''.join(str(random.randint(0, 9)) for _ in range(PAIRING_CODE_LENGTH))`.
The environment supplies `digits`, the `PAIRING_CODE_LENGTH` values
returned by the successive `random.randint(0, 9)` calls (each uniform on
`0..9`). -/
def generate_pairing_code_legacy (digits : List Nat) : String :=
  String.join (digits.map pyStrNat)

/-! ## `pickup_net.py`: the pairing handshake -/

/-- `connection.recv(1024).decode('utf-8')`: the single read performed by
`handle_incoming_pairing` (and, with the same buffer size, by
`initiate_pairing`).  One `recv` call returns at most 1024 bytes of the
data the peer sent; this models the best case in which the first 1024
bytes have all arrived. -/
def recvOnce (wire : String) : String := ⟨wire.data.take 1024⟩

/-- Result of the responder handler: the JSON document written back on
the socket (if any) and the resulting state file. -/
structure HandleResult where
  response : Option PyVal
  file : StateFile

/-- `pickup_net.handle_incoming_pairing`, from the point where the
received text is JSON-decoded (`payload = none` models
`json.JSONDecodeError`: logged, no reply; a decoded non-dict payload makes
`payload.get` raise `AttributeError`, caught by the generic handler, no
reply).  On a matching `pairing_request` the success reply is sent first
and then `add_paired_device` persists the peer; an exception escaping
`add_paired_device` is caught after the reply was already sent. -/
def handle_incoming_pairing (payload : Option PyVal) (addrIp : String)
    (expected_code : String) (ownHostname : String) (now : Int)
    (wOk : Bool) (f : StateFile) : HandleResult :=
  match payload with
  | Option.none => ⟨Option.none, f⟩
  | some p =>
    match p with
    | .dict d =>
      if pyEqStr (dget d "type") "pairing_request" &&
         pyEqStr (dget d "code") expected_code then
        let response : PyVal := .dict
          [ ("type", .str "pairing_confirm"),
            ("status", .str "success"),
            ("hostname", .str ownHostname) ]
        let remote_hostname : PyVal := (dget d "hostname").getD (.str "Unknown Device")
        let device_id := pyStr remote_hostname ++ "@" ++ addrIp
        let device_info : PyVal := .dict
          [ ("hostname", remote_hostname),
            ("ip", .str addrIp),
            ("port", .int DEFAULT_PORT),
            ("paired_at", .int now) ]
        ⟨some response, (add_paired_device device_id device_info wOk f).2⟩
      else
        ⟨some (.dict
          [ ("type", .str "pairing_confirm"),
            ("status", .str "failure"),
            ("reason", .str "Invalid code") ]), f⟩
    | _ => ⟨Option.none, f⟩

/-- The network environment seen by one `initiate_pairing` call:
which exception, if any, the connect/send/recv sequence raises, or the
decoded response (`data = none` models undecodable JSON). -/
inductive NetOutcome where
  | connectionRefused
  | connectTimeout
  | readTimeout
  | otherError
  | response (data : Option PyVal)

/-- `pickup_net.initiate_pairing`.  Every exception is caught inside the
function and turned into `False`; on a `pairing_confirm`/`success`
response the peer is persisted via `add_paired_device` and `True` is
returned (an exception escaping `add_paired_device` falls into the
generic handler, yielding `False`).  `code` is the code sent on the wire;
the reply is determined by the environment `env`. -/
def initiate_pairing (env : NetOutcome) (target_ip : String)
    (target_port : Int) (code : String) (now : Int)
    (wOk : Bool) (f : StateFile) : Bool × StateFile :=
  match env with
  | .connectionRefused => (false, f)
  | .connectTimeout => (false, f)
  | .readTimeout => (false, f)
  | .otherError => (false, f)
  | .response Option.none => (false, f)
  | .response (some r) =>
    match r with
    | .dict rd =>
      if pyEqStr (dget rd "type") "pairing_confirm" &&
         pyEqStr (dget rd "status") "success" then
        let remote_hostname : PyVal := (dget rd "hostname").getD (.str "Unknown Device")
        let device_id := pyStr remote_hostname ++ "@" ++ target_ip
        let device_info : PyVal := .dict
          [ ("hostname", remote_hostname),
            ("ip", .str target_ip),
            ("port", .int target_port),
            ("paired_at", .int now) ]
        match add_paired_device device_id device_info wOk f with
        | (some _, f') => (true, f')
        | (Option.none, _) => (false, f)
      else (false, f)
    | _ => (false, f)

/-! ## `pickup_net.py`: discovery/advertisement lifecycle

The module-level mutable state (`zeroconf_instance`, `discovery_browser`,
`service_info`) is modelled explicitly; a live `Zeroconf` handle is
identified by a number so that closing-and-recreating is distinguishable
from keeping the same handle. -/

/-- The module-level discovery state of `pickup_net`. -/
structure ZcState where
  zeroconf : Option Nat
  browser : Bool
  advertised : Bool

/-- `pickup_net.start_discovery` (success path of the `Zeroconf()`
constructor; `fresh` is the identity of the newly created handle).  When a
browser already exists the call is a warning no-op; otherwise any existing
`zeroconf_instance` is closed and replaced by a fresh one. -/
def start_discovery (fresh : Nat) (s : ZcState) : ZcState :=
  if s.browser then s
  else { zeroconf := some fresh, browser := true, advertised := s.advertised }

/-- `pickup_net.stop_discovery`: no-op when no instance exists; otherwise
cancels the browser and closes the `Zeroconf` instance unconditionally
(the `service_info` registration of an active advertisement is left
dangling on the closed handle). -/
def stop_discovery (s : ZcState) : ZcState :=
  if s.zeroconf.isNone then s
  else { zeroconf := Option.none, browser := false, advertised := s.advertised }

/-- `pickup_net.advertise_service` (success path): warning no-op when
already advertised; otherwise reuses the existing `Zeroconf` instance or
creates one (`fresh`) when none exists, then registers the service. -/
def advertise_service (fresh : Nat) (s : ZcState) : ZcState :=
  if s.advertised then s
  else { zeroconf := some (s.zeroconf.getD fresh), browser := s.browser,
         advertised := true }

/-! ## `pickup_net.py`: pairing-service (responder session) lifecycle -/

/-- The module-level responder-session state: whether
`_pairing_server_thread` references a thread, whether that thread is
alive, how many worker threads are still running without being
referenced any more, the stop flag, and whether `_pairing_socket` is
open. -/
structure PairingSvc where
  threadRef : Bool
  refAlive : Bool
  zombies : Nat
  stopFlag : Bool
  socketOpen : Bool

/-- Number of responder workers currently running. -/
def activeWorkers (s : PairingSvc) : Nat :=
  (if s.threadRef && s.refAlive then 1 else 0) + s.zombies

/-- `pickup_net.stop_pairing_service`: set the stop flag, force-close the
socket, `join(timeout=2.0)` the worker, then drop the thread reference
even when the join timed out (that case only logs a warning).  The
environment bit `exits` says whether the worker terminates within the
join bound; when it does not, it keeps running unreferenced. -/
def stop_pairing_service (exits : Bool) (s : PairingSvc) : PairingSvc :=
  let stillAlive := s.threadRef && s.refAlive && !exits
  { threadRef := false, refAlive := false,
    zombies := s.zombies + (if stillAlive then 1 else 0),
    stopFlag := true, socketOpen := false }

/-- `pickup_net.start_pairing_service`: when a previous worker is still
alive, first call `stop_pairing_service` (with environment bit `exits`),
then clear the stop flag and start the new worker thread. -/
def start_pairing_service (exits : Bool) (s : PairingSvc) : PairingSvc :=
  let s' := if s.threadRef && s.refAlive then stop_pairing_service exits s else s
  { threadRef := true, refAlive := true, zombies := s'.zombies,
    stopFlag := false, socketOpen := s'.socketOpen }

/-! ## Dictionary lemmas -/

theorem dget_dset_self (d : Dict) (k : String) (v : PyVal) :
    dget (dset d k v) k = some v := by
  induction d with
  | nil => simp [dset, dget]
  | cons p t ih =>
    obtain ⟨k', v'⟩ := p
    by_cases h : k' = k
    · simp [dset, dget, h]
    · simp [dset, dget, h, ih]

theorem dget_dset_ne (d : Dict) (k k' : String) (v : PyVal) (h : k' ≠ k) :
    dget (dset d k v) k' = dget d k' := by
  have h' : k ≠ k' := Ne.symm h
  induction d with
  | nil => simp [dset, dget, h']
  | cons p t ih =>
    obtain ⟨k0, v0⟩ := p
    by_cases h0 : k0 = k
    · subst h0
      simp [dset, dget, h']
    · simp only [dset, if_neg h0, dget]
      by_cases h1 : k0 = k'
      · simp [h1]
      · simp [h1, ih]

theorem dget_ddel_self (d : Dict) (k : String) :
    dget (ddel d k) k = Option.none := by
  induction d with
  | nil => simp [ddel, dget]
  | cons p t ih =>
    obtain ⟨k0, v0⟩ := p
    by_cases h0 : k0 = k
    · simpa [ddel, h0] using ih
    · simpa [ddel, h0, dget] using ih

theorem dget_ddel_ne (d : Dict) (k k' : String) (h : k' ≠ k) :
    dget (ddel d k) k' = dget d k' := by
  induction d with
  | nil => simp [ddel, dget]
  | cons p t ih =>
    obtain ⟨k0, v0⟩ := p
    by_cases h0 : k0 = k
    · subst h0
      have h1 : k0 ≠ k' := Ne.symm h
      simpa [ddel, dget, h1] using ih
    · by_cases h1 : k0 = k'
      · subst h1
        simp [ddel, h0, dget]
      · simpa [ddel, h0, dget, h1] using ih

theorem isSome_dget_of_mem {l : Dict} {k : String} {v : PyVal}
    (h : (k, v) ∈ l) : (dget l k).isSome = true := by
  induction l with
  | nil => cases h
  | cons p t ih =>
    obtain ⟨k0, v0⟩ := p
    by_cases h0 : k0 = k
    · simp [dget, h0]
    · rcases List.mem_cons.mp h with h1 | h1
      · cases h1; simp at h0
      · simp [dget, h0, ih h1]

theorem isSome_dget_dset {d : Dict} {k : String} (k' : String) (v : PyVal)
    (h : (dget d k).isSome = true) : (dget (dset d k' v) k).isSome = true := by
  by_cases hk : k' = k
  · subst hk; simp [dget_dset_self]
  · rw [dget_dset_ne d k' k v (fun hh => hk hh.symm)]; exact h

theorem dupdate_nil (a : Dict) : dupdate a [] = a := rfl

theorem dupdate_cons (a : Dict) (p : String × PyVal) (t : Dict) :
    dupdate a (p :: t) = dupdate (dset a p.1 p.2) t := rfl

theorem isSome_dget_dupdate_left {a : Dict} (e : Dict) {k : String}
    (h : (dget a k).isSome = true) : (dget (dupdate a e) k).isSome = true := by
  induction e generalizing a with
  | nil => exact h
  | cons p t ih => exact ih (isSome_dget_dset p.1 p.2 h)

theorem dget_dupdate_of_none {e : Dict} {k : String} (a : Dict)
    (h : dget e k = Option.none) : dget (dupdate a e) k = dget a k := by
  induction e generalizing a with
  | nil => rfl
  | cons p t ih =>
    obtain ⟨k0, v0⟩ := p
    by_cases h0 : k0 = k
    · simp [dget, h0] at h
    · rw [dupdate_cons]
      simp only [dget, if_neg h0] at h
      rw [ih _ h, dget_dset_ne _ _ _ _ (fun hh => h0 hh.symm)]

/-- Keys of a `dset` result are among the old keys plus the new key. -/
theorem mem_keys_dset {d : Dict} {k x : String} {v : PyVal}
    (h : x ∈ (dset d k v).map Prod.fst) :
    x = k ∨ x ∈ d.map Prod.fst := by
  induction d with
  | nil => simpa [dset] using h
  | cons p t ih =>
    obtain ⟨k0, v0⟩ := p
    by_cases h0 : k0 = k
    · simp only [dset, if_pos h0, List.map_cons, List.mem_cons] at h
      rcases h with h | h
      · right; simp [h]
      · right; simp [h]
    · simp only [dset, if_neg h0, List.map_cons, List.mem_cons] at h
      rcases h with h | h
      · right; simp [h]
      · rcases ih h with h | h
        · exact Or.inl h
        · right; simp [h]

theorem keysNodup_dset {d : Dict} (k : String) (v : PyVal)
    (h : keysNodup d) : keysNodup (dset d k v) := by
  induction d with
  | nil => simp [keysNodup, dset]
  | cons p t ih =>
    obtain ⟨k0, v0⟩ := p
    simp only [keysNodup, List.map_cons, List.nodup_cons] at h
    by_cases h0 : k0 = k
    · simpa [keysNodup, dset, h0, List.nodup_cons] using h
    · have ht := ih h.2
      simp only [keysNodup, dset, if_neg h0, List.map_cons, List.nodup_cons]
      refine ⟨fun hx => ?_, ht⟩
      rcases mem_keys_dset hx with hx | hx
      · exact h0 hx
      · exact h.1 hx

/-- Keys of a `ddel` result are among the old keys. -/
theorem mem_keys_ddel {d : Dict} {k x : String}
    (h : x ∈ (ddel d k).map Prod.fst) : x ∈ d.map Prod.fst := by
  induction d with
  | nil => simpa [ddel] using h
  | cons p t ih =>
    obtain ⟨k0, v0⟩ := p
    by_cases h0 : k0 = k
    · simp only [ddel, if_pos h0] at h
      right
      exact ih h
    · simp only [ddel, if_neg h0, List.map_cons, List.mem_cons] at h
      rcases h with h | h
      · simp [h]
      · right
        exact ih h

theorem keysNodup_ddel {d : Dict} (k : String) (h : keysNodup d) :
    keysNodup (ddel d k) := by
  induction d with
  | nil => simp [keysNodup, ddel]
  | cons p t ih =>
    obtain ⟨k0, v0⟩ := p
    simp only [keysNodup, List.map_cons, List.nodup_cons] at h
    by_cases h0 : k0 = k
    · simp only [ddel, if_pos h0]
      exact ih h.2
    · simp only [keysNodup, ddel, if_neg h0, List.map_cons, List.nodup_cons]
      exact ⟨fun hx => h.1 (mem_keys_ddel hx), ih h.2⟩

theorem keysNodup_dupdate {a : Dict} (e : Dict) (h : keysNodup a) :
    keysNodup (dupdate a e) := by
  induction e generalizing a with
  | nil => exact h
  | cons p t ih => exact ih (keysNodup_dset p.1 p.2 h)

/-- A key not among `d`'s keys looks up to nothing. -/
theorem dget_eq_none_of_not_mem {d : Dict} {k : String}
    (h : k ∉ d.map Prod.fst) : dget d k = Option.none := by
  induction d with
  | nil => rfl
  | cons p t ih =>
    obtain ⟨k0, v0⟩ := p
    simp only [List.map_cons, List.mem_cons] at h
    push_neg at h
    simp only [dget, if_neg (fun hh : k0 = k => h.1 hh.symm)]
    exact ih h.2

theorem dget_dupdate_of_some {e : Dict} {k : String} {v : PyVal} (a : Dict)
    (hn : keysNodup e) (h : dget e k = some v) :
    dget (dupdate a e) k = some v := by
  induction e generalizing a with
  | nil => simp [dget] at h
  | cons p t ih =>
    obtain ⟨k0, v0⟩ := p
    simp only [keysNodup, List.map_cons, List.nodup_cons] at hn
    by_cases h0 : k0 = k
    · subst h0
      have h' : v0 = v := by simpa [dget] using h
      subst h'
      rw [dupdate_cons]
      have hnone : dget t k0 = Option.none := dget_eq_none_of_not_mem hn.1
      rw [dget_dupdate_of_none _ hnone]
      exact dget_dset_self a k0 v0
    · simp only [dget, if_neg h0] at h
      rw [dupdate_cons]
      exact ih _ hn.2 h

/-! ## `load_state` / trust-store lemmas -/

theorem keysNodup_DEFAULT : keysNodup DEFAULT_STATE := by
  simp [keysNodup, DEFAULT_STATE]

/-- The ensure-essential-keys loop of `load_state` changes nothing when
every essential key is already present. -/
theorem ensureKeys_eq_self (defaults st : Dict)
    (h : ∀ p ∈ defaults, (dget st p.1).isSome = true) :
    ensureKeys defaults st = st := by
  induction defaults with
  | nil => rfl
  | cons p t ih =>
    have hp := h p (List.mem_cons_self p t)
    have hstep : (if (dget st p.1).isNone then dset st p.1 p.2 else st) = st := by
      rw [if_neg]
      simp [Option.isNone_iff_eq_none]
      intro hc
      rw [hc] at hp
      simp at hp
    show List.foldl _ st (p :: t) = st
    rw [List.foldl_cons]
    show ensureKeys t (if (dget st p.1).isNone then dset st p.1 p.2 else st) = _
    rw [hstep]
    exact ih (fun q hq => h q (List.mem_cons_of_mem p hq))

/-- Loading a parsed document merges it over the defaults; the
ensure-essential-keys loop is a no-op because `DEFAULT_STATE` already
contributed every essential key. -/
theorem load_state_doc (d : Dict) :
    load_state (.doc d) = dupdate DEFAULT_STATE d := by
  show ensureKeys DEFAULT_STATE (dupdate DEFAULT_STATE d) = _
  refine ensureKeys_eq_self _ _ (fun p hp => ?_)
  exact isSome_dget_dupdate_left d (isSome_dget_of_mem (by simpa using hp))

/-- The loaded state always has pairwise-distinct top-level keys. -/
theorem keysNodup_load_state (f : StateFile) : keysNodup (load_state f) := by
  cases f with
  | missing => exact keysNodup_DEFAULT
  | corrupt => exact keysNodup_DEFAULT
  | doc d =>
    rw [load_state_doc]
    exact keysNodup_dupdate d keysNodup_DEFAULT

/-- On a well-formed file the loaded `paired_devices` entry is a dict. -/
theorem load_state_pd (f : StateFile) (hwf : wfFile f) :
    ∃ pd, dget (load_state f) "paired_devices" = some (.dict pd) := by
  cases f with
  | missing => exact ⟨[], rfl⟩
  | corrupt => exact ⟨[], rfl⟩
  | doc d =>
    obtain ⟨hnd, hpd⟩ := hwf
    rw [load_state_doc]
    rcases hpd with hnone | ⟨pd, hsome⟩
    · refine ⟨[], ?_⟩
      rw [dget_dupdate_of_none _ hnone]
      rfl
    · exact ⟨pd, dget_dupdate_of_some _ hnd hsome⟩

/-- Unfolding of `add_paired_device` in the non-degenerate case. -/
theorem add_paired_device_eq (id : String) (info : PyVal) (wOk : Bool)
    (f : StateFile) (pd : Dict)
    (hid : ¬ id = "") (hinfo : info.isDict = true)
    (hpd : dget (load_state f) "paired_devices" = some (.dict pd)) :
    add_paired_device id info wOk f =
      (some (), write_state wOk f
        (dset (load_state f) "paired_devices" (.dict (dset pd id info)))) := by
  unfold add_paired_device
  rw [if_neg (by simp [hid, hinfo])]
  simp only [hpd, Option.isNone_some, Bool.false_eq_true, if_false]

theorem pairedOf_eq (f : StateFile) (pd : Dict)
    (hpd : dget (load_state f) "paired_devices" = some (.dict pd)) :
    pairedOf f = pd := by
  unfold pairedOf get_paired_devices
  rw [hpd]
  rfl

/-- After a successful `add_paired_device` write, the file holds the
loaded state with `pd[id] = info` applied, the store loads back with
exactly that paired dict, and the file stays well formed. -/
theorem add_paired_device_spec (id : String) (info : PyVal)
    (f : StateFile) (pd : Dict)
    (hid : ¬ id = "") (hinfo : info.isDict = true)
    (hpd : dget (load_state f) "paired_devices" = some (.dict pd)) :
    (add_paired_device id info true f).2 =
        .doc (dset (load_state f) "paired_devices" (.dict (dset pd id info))) ∧
    pairedOf (add_paired_device id info true f).2 = dset pd id info ∧
    wfFile (add_paired_device id info true f).2 := by
  rw [add_paired_device_eq id info true f pd hid hinfo hpd]
  have hnodup : keysNodup (dset (load_state f) "paired_devices" (.dict (dset pd id info))) :=
    keysNodup_dset _ _ (keysNodup_load_state f)
  have hget : dget (load_state (.doc (dset (load_state f) "paired_devices"
      (.dict (dset pd id info))))) "paired_devices" = some (.dict (dset pd id info)) := by
    rw [load_state_doc]
    exact dget_dupdate_of_some _ hnodup (dget_dset_self _ _ _)
  refine ⟨rfl, pairedOf_eq _ _ hget, hnodup, Or.inr ⟨_, dget_dset_self _ _ _⟩⟩

/-- After `remove_paired_device` with a successful write, the removed
key loads back absent (whether or not it was present). -/
theorem remove_paired_device_spec (id : String) (f : StateFile) (pd : Dict)
    (hpd : dget (load_state f) "paired_devices" = some (.dict pd)) :
    (remove_paired_device id true f).1 = some () ∧
    dget (pairedOf (remove_paired_device id true f).2) id = Option.none := by
  simp only [remove_paired_device]
  rw [hpd]
  dsimp only
  by_cases h : (dget pd id).isSome = true
  · rw [if_pos h]
    refine ⟨rfl, ?_⟩
    have hnodup : keysNodup (dset (load_state f) "paired_devices" (.dict (ddel pd id))) :=
      keysNodup_dset _ _ (keysNodup_load_state f)
    have hget : dget (load_state (.doc (dset (load_state f) "paired_devices"
        (.dict (ddel pd id))))) "paired_devices" = some (.dict (ddel pd id)) := by
      rw [load_state_doc]
      exact dget_dupdate_of_some _ hnodup (dget_dset_self _ _ _)
    show dget (pairedOf (write_state true f _)) id = _
    unfold write_state
    rw [if_pos rfl, pairedOf_eq _ _ hget]
    exact dget_ddel_self pd id
  · rw [if_neg h]
    refine ⟨rfl, ?_⟩
    show dget (pairedOf f) id = _
    rw [pairedOf_eq f pd hpd]
    exact Option.not_isSome_iff_eq_none.mp h

/-- Frame lemma for a `write_state` of a state whose only modified
top-level key is `paired_devices`. -/
theorem fileGet_write_dset_pd (f0 : StateFile) (st2 : Dict) (k : String)
    (v X : PyVal) (wOk : Bool) (hk : ¬ k = "paired_devices")
    (hv0 : fileGet f0 k = some v) (hv2 : dget st2 k = some v) :
    fileGet (write_state wOk f0 (dset st2 "paired_devices" X)) k = some v := by
  cases wOk with
  | false => exact hv0
  | true =>
    show dget (dset st2 "paired_devices" X) k = some v
    rw [dget_dset_ne _ _ _ _ hk]
    exact hv2

/-- Any `add_paired_device` call leaves every top-level key other than
`paired_devices` untouched in the file. -/
theorem add_paired_device_frame (id : String) (info : PyVal) (wOk : Bool)
    (d : Dict) (k : String) (v : PyVal)
    (hk : ¬ k = "paired_devices") (hnd : keysNodup d) (hv : dget d k = some v) :
    fileGet (add_paired_device id info wOk (.doc d)).2 k = some v := by
  have hload : dget (load_state (.doc d)) k = some v := by
    rw [load_state_doc]
    exact dget_dupdate_of_some _ hnd hv
  simp only [add_paired_device]
  by_cases hg : id = "" ∨ info.isDict = false
  · rw [if_pos hg]
    exact hv
  · rw [if_neg hg]
    have hst2 : dget (if (dget (load_state (.doc d)) "paired_devices").isNone
        then dset (load_state (.doc d)) "paired_devices" (.dict [])
        else load_state (.doc d)) k = some v := by
      split
      · rw [dget_dset_ne _ _ _ _ hk]
        exact hload
      · exact hload
    split
    · exact fileGet_write_dset_pd _ _ _ _ _ _ hk hv hst2
    · exact hv

/-- Any `remove_paired_device` call leaves every top-level key other than
`paired_devices` untouched in the file. -/
theorem remove_paired_device_frame (id : String) (wOk : Bool)
    (d : Dict) (k : String) (v : PyVal)
    (hk : ¬ k = "paired_devices") (hnd : keysNodup d) (hv : dget d k = some v) :
    fileGet (remove_paired_device id wOk (.doc d)).2 k = some v := by
  have hload : dget (load_state (.doc d)) k = some v := by
    rw [load_state_doc]
    exact dget_dupdate_of_some _ hnd hv
  simp only [remove_paired_device]
  split
  · split
    · exact fileGet_write_dset_pd _ _ _ _ _ _ hk hv hload
    · exact hv
  · exact hv
  · exact hv

theorem pyEqStr_true {v : Option PyVal} {t : String}
    (h : pyEqStr v t = true) : v = some (.str t) := by
  cases v with
  | none => simp [pyEqStr] at h
  | some p =>
    cases p with
    | str s =>
      simp only [pyEqStr, decide_eq_true_eq] at h
      rw [h]
    | int n => simp [pyEqStr] at h
    | bool b => simp [pyEqStr] at h
    | none => simp [pyEqStr] at h
    | list l => simp [pyEqStr] at h
    | dict dd => simp [pyEqStr] at h

theorem pyEqStr_of_eq {v : Option PyVal} {t : String}
    (h : v = some (.str t)) : pyEqStr v t = true := by
  rw [h]
  simp [pyEqStr]

/-- A `hostname@ip` device id is never the empty string. -/
theorem device_id_ne_empty (rh ip : String) : ¬ (rh ++ "@" ++ ip) = "" := by
  intro h
  have hlen := congrArg String.length h
  simp only [String.length_append] at hlen
  have h1 : ("@" : String).length = 1 := rfl
  have h0 : ("" : String).length = 0 := rfl
  omega

theorem natStrAux_succ (fuel n : Nat) (acc : List Char) :
    natStrAux (fuel + 1) n acc =
      if n < 10 then digitChar n :: acc
      else natStrAux fuel (n / 10) (digitChar (n % 10) :: acc) := rfl

/-- The digit rendering does not depend on the fuel, as long as the fuel
exceeds the value. -/
theorem natStrAux_irrel (f1 : Nat) : ∀ f2 n acc, n < f1 → n < f2 →
    natStrAux f1 n acc = natStrAux f2 n acc := by
  induction f1 with
  | zero => intro f2 n acc h1 _; omega
  | succ f ih =>
    intro f2 n acc h1 h2
    cases f2 with
    | zero => omega
    | succ g =>
      rw [natStrAux_succ, natStrAux_succ]
      by_cases hn : n < 10
      · rw [if_pos hn, if_pos hn]
      · rw [if_neg hn, if_neg hn]
        have hlt : n / 10 < n := Nat.div_lt_self (by omega) (by norm_num)
        exact ih g (n / 10) _ (by omega) (by omega)

/-- Decimal rendering of a four-digit number, digit by digit. -/
theorem pyStrNat_four (n : Nat) (h1 : 1000 ≤ n) (h2 : n ≤ 9999) :
    pyStrNat n = ⟨[digitChar (n / 1000), digitChar (n / 100 % 10),
                   digitChar (n / 10 % 10), digitChar (n % 10)]⟩ := by
  have d1 : n / 10 / 10 = n / 100 := by omega
  have d2 : n / 100 / 10 = n / 1000 := by omega
  have e1 : natStrAux (n + 1) n [] =
      natStrAux ((n / 10) + 1) (n / 10) [digitChar (n % 10)] := by
    rw [natStrAux_succ, if_neg (by omega)]
    exact natStrAux_irrel n _ _ _ (by omega) (by omega)
  have e2 : natStrAux ((n / 10) + 1) (n / 10) [digitChar (n % 10)] =
      natStrAux ((n / 100) + 1) (n / 100)
        [digitChar (n / 10 % 10), digitChar (n % 10)] := by
    rw [natStrAux_succ, if_neg (by omega), d1]
    exact natStrAux_irrel (n / 10) _ _ _ (by omega) (by omega)
  have e3 : natStrAux ((n / 100) + 1) (n / 100)
        [digitChar (n / 10 % 10), digitChar (n % 10)] =
      natStrAux ((n / 1000) + 1) (n / 1000)
        [digitChar (n / 100 % 10), digitChar (n / 10 % 10), digitChar (n % 10)] := by
    rw [natStrAux_succ, if_neg (by omega), d2]
    exact natStrAux_irrel (n / 100) _ _ _ (by omega) (by omega)
  unfold pyStrNat
  rw [e1, e2, e3, natStrAux_succ, if_pos (by omega)]

theorem digitChar_ne_zero {d : Nat} (h1 : 1 ≤ d) (h2 : d ≤ 9) :
    ¬ digitChar d = '0' := by
  interval_cases d <;> decide

theorem digitChar_isDigit {d : Nat} (h : d ≤ 9) :
    (digitChar d).isDigit = true := by
  interval_cases d <;> decide

/-! ## Claim theorems -/

/-- **C3.**  Trust-store round-trip: on a well-formed state file, for
every non-empty `deviceId` and dict record, `AddOrUpdate(id, rec)`
followed by `Load()` yields `rec` under key `id`; a repeated
`AddOrUpdate` with the same `id` is last-writer-wins; and for every `id`,
`Remove(id)` followed by `Load()` yields no entry under `id`. -/
theorem trust_store_roundtrip (id : String) (rec rec' : PyVal) (f : StateFile)
    (hid : ¬ id = "") (hrec : rec.isDict = true) (hrec' : rec'.isDict = true)
    (hwf : wfFile f) :
    dget (pairedOf (add_paired_device id rec true f).2) id = some rec ∧
    dget (pairedOf (add_paired_device id rec' true
      (add_paired_device id rec true f).2).2) id = some rec' ∧
    (∀ id' : String,
      dget (pairedOf (remove_paired_device id' true f).2) id' = Option.none) := by
  obtain ⟨pd, hpd⟩ := load_state_pd f hwf
  obtain ⟨hdoc, hpaired, hwf'⟩ := add_paired_device_spec id rec f pd hid hrec hpd
  refine ⟨?_, ?_, ?_⟩
  · rw [hpaired]
    exact dget_dset_self pd id rec
  · obtain ⟨pd2, hpd2⟩ := load_state_pd _ hwf'
    obtain ⟨_, hpaired2, _⟩ := add_paired_device_spec id rec' _ pd2 hid hrec' hpd2
    rw [hpaired2]
    exact dget_dset_self pd2 id rec'
  · exact fun id' => (remove_paired_device_spec id' f pd hpd).2

/-- Witness for `trust_store_roundtrip` at a concrete input. -/
theorem trust_store_roundtrip_witness :
    (¬ "alice@10.0.0.5" = "" ∧
     (PyVal.dict [("hostname", .str "alice")]).isDict = true ∧
     (PyVal.dict []).isDict = true ∧
     wfFile .missing) ∧
    (dget (pairedOf (add_paired_device "alice@10.0.0.5"
        (.dict [("hostname", .str "alice")]) true .missing).2)
        "alice@10.0.0.5" = some (.dict [("hostname", .str "alice")]) ∧
     dget (pairedOf (add_paired_device "alice@10.0.0.5" (.dict []) true
        (add_paired_device "alice@10.0.0.5"
          (.dict [("hostname", .str "alice")]) true .missing).2).2)
        "alice@10.0.0.5" = some (.dict []) ∧
     (∀ id' : String,
       dget (pairedOf (remove_paired_device id' true StateFile.missing).2) id' =
         Option.none)) :=
  ⟨⟨by simp, rfl, rfl, trivial⟩,
   trust_store_roundtrip "alice@10.0.0.5" (.dict [("hostname", .str "alice")])
     (.dict []) .missing (by simp) rfl rfl trivial⟩

/-- **C7.**  Unknown-field preservation: every top-level key of the
persisted document other than `paired_devices` (the one key the trust
store owns) keeps its value across any `add_paired_device` or
`remove_paired_device` read-modify-write cycle, whether or not the write
succeeds. -/
theorem unknown_fields_preserved (d : Dict) (k : String) (v : PyVal)
    (hk : ¬ k = "paired_devices") (hnd : keysNodup d) (hv : dget d k = some v) :
    (∀ id info wOk,
      fileGet (add_paired_device id info wOk (.doc d)).2 k = some v) ∧
    (∀ id wOk,
      fileGet (remove_paired_device id wOk (.doc d)).2 k = some v) :=
  ⟨fun id info wOk => add_paired_device_frame id info wOk d k v hk hnd hv,
   fun id wOk => remove_paired_device_frame id wOk d k v hk hnd hv⟩

/-- Witness for `unknown_fields_preserved` at a concrete input. -/
theorem unknown_fields_preserved_witness :
    (¬ "applications" = "paired_devices" ∧
     keysNodup [("applications", PyVal.list [.str "firefox"]),
                ("paired_devices", PyVal.dict [])] ∧
     dget [("applications", PyVal.list [.str "firefox"]),
           ("paired_devices", PyVal.dict [])] "applications" =
       some (.list [.str "firefox"])) ∧
    ((∀ id info wOk,
       fileGet (add_paired_device id info wOk
         (.doc [("applications", PyVal.list [.str "firefox"]),
                ("paired_devices", PyVal.dict [])])).2 "applications" =
         some (.list [.str "firefox"])) ∧
     (∀ id wOk,
       fileGet (remove_paired_device id wOk
         (.doc [("applications", PyVal.list [.str "firefox"]),
                ("paired_devices", PyVal.dict [])])).2 "applications" =
         some (.list [.str "firefox"]))) :=
  ⟨⟨by simp, by simp [keysNodup], rfl⟩,
   unknown_fields_preserved _ "applications" _ (by simp) (by simp [keysNodup]) rfl⟩

/-- **C10.**  Implicit input guard: `add_paired_device` with an empty
`device_id` or a non-dict `device_info` returns normally without loading
or writing anything; the state file is unchanged. -/
theorem add_invalid_args_noop (id : String) (info : PyVal) (wOk : Bool)
    (f : StateFile) (h : id = "" ∨ info.isDict = false) :
    add_paired_device id info wOk f = (some (), f) := by
  unfold add_paired_device
  rw [if_pos h]

/-- Witness for `add_invalid_args_noop` at concrete inputs. -/
theorem add_invalid_args_noop_witness :
    ("" = "" ∨ (PyVal.dict []).isDict = false) ∧
    add_paired_device "" (.dict []) true (.doc []) = (some (), .doc []) :=
  ⟨Or.inl rfl, add_invalid_args_noop "" (.dict []) true (.doc []) (Or.inl rfl)⟩

/-- **C6 counterexample.**  The claim says a failed write "must be
reported upward to the caller".  In the code, `write_state` catches
`IOError`, logs it and returns normally, and `add_paired_device` returns
`None` either way: with a failing write the call completes with exactly
the same caller-visible outcome as with a successful write, while the
file is left unchanged.  Concretely, on a missing state file. -/
theorem write_failure_silent_counterexample :
    (add_paired_device "alice@10.0.0.5" (.dict []) false .missing).1 = some () ∧
    (add_paired_device "alice@10.0.0.5" (.dict []) false .missing).2 = .missing ∧
    (add_paired_device "alice@10.0.0.5" (.dict []) true .missing).1 = some () := by
  exact ⟨rfl, rfl, rfl⟩

/-- **C6 (amended).**  Storage error asymmetry as implemented: read
failures are absorbed — a missing or corrupt state file loads as the
default state, without an exception; write failures are logged and
dropped — under a failing write `add_paired_device` still returns
normally (`None`), leaves the file unchanged, and reports nothing to the
caller. -/
theorem storage_error_asymmetry (id : String) (info : PyVal) (f : StateFile)
    (pd : Dict) (hid : ¬ id = "") (hinfo : info.isDict = true)
    (hpd : dget (load_state f) "paired_devices" = some (.dict pd)) :
    load_state .missing = DEFAULT_STATE ∧
    load_state .corrupt = DEFAULT_STATE ∧
    add_paired_device id info false f = (some (), f) := by
  refine ⟨rfl, rfl, ?_⟩
  rw [add_paired_device_eq id info false f pd hid hinfo hpd]
  rfl

/-- Witness for `storage_error_asymmetry` at a concrete input. -/
theorem storage_error_asymmetry_witness :
    (¬ "alice@10.0.0.5" = "" ∧ (PyVal.dict []).isDict = true ∧
     dget (load_state .missing) "paired_devices" = some (.dict [])) ∧
    (load_state .missing = DEFAULT_STATE ∧
     load_state .corrupt = DEFAULT_STATE ∧
     add_paired_device "alice@10.0.0.5" (.dict []) false .missing =
       (some (), .missing)) :=
  ⟨⟨by simp, rfl, rfl⟩,
   storage_error_asymmetry "alice@10.0.0.5" (.dict []) .missing [] (by simp) rfl rfl⟩

/-- **C1.**  Responder protocol: a decoded request of type
`pairing_request` whose `code` equals the expected code (string
comparison) gets the success reply carrying this host's hostname, and
exactly one `PairedDevice` is stored under `remoteHostname@remoteIp`
with fields `hostname`, `ip`, `port` and `paired_at` (every other entry
unchanged); a request whose `code` does not match gets the
`Invalid code` failure reply and leaves the store untouched. -/
theorem responder_pairing_protocol
    (d : Dict) (ip expected own : String) (now : Int) (f : StateFile)
    (hwf : wfFile f) :
    (∀ rh : String,
      dget d "hostname" = some (.str rh) →
      dget d "type" = some (.str "pairing_request") →
      dget d "code" = some (.str expected) →
      (handle_incoming_pairing (some (.dict d)) ip expected own now true f).response =
        some (.dict [("type", .str "pairing_confirm"), ("status", .str "success"),
                     ("hostname", .str own)]) ∧
      dget (pairedOf (handle_incoming_pairing (some (.dict d)) ip expected own now
            true f).file) (rh ++ "@" ++ ip) =
        some (.dict [("hostname", .str rh), ("ip", .str ip),
                     ("port", .int DEFAULT_PORT), ("paired_at", .int now)]) ∧
      (∀ k : String, ¬ k = rh ++ "@" ++ ip →
        dget (pairedOf (handle_incoming_pairing (some (.dict d)) ip expected own now
            true f).file) k = dget (pairedOf f) k)) ∧
    (¬ dget d "code" = some (.str expected) →
      handle_incoming_pairing (some (.dict d)) ip expected own now true f =
        ⟨some (.dict [("type", .str "pairing_confirm"), ("status", .str "failure"),
                      ("reason", .str "Invalid code")]), f⟩) := by
  constructor
  · intro rh hh ht hc
    have hcond : (pyEqStr (dget d "type") "pairing_request" &&
        pyEqStr (dget d "code") expected) = true := by
      rw [pyEqStr_of_eq ht, pyEqStr_of_eq hc]
      rfl
    have hred : handle_incoming_pairing (some (.dict d)) ip expected own now true f =
        ⟨some (.dict [("type", .str "pairing_confirm"), ("status", .str "success"),
                      ("hostname", .str own)]),
         (add_paired_device (rh ++ "@" ++ ip)
           (.dict [("hostname", .str rh), ("ip", .str ip),
                   ("port", .int DEFAULT_PORT), ("paired_at", .int now)]) true f).2⟩ := by
      simp only [handle_incoming_pairing, hcond, hh, if_true]
      rfl
    obtain ⟨pd, hpd⟩ := load_state_pd f hwf
    obtain ⟨_, hpaired, _⟩ := add_paired_device_spec (rh ++ "@" ++ ip)
      (.dict [("hostname", .str rh), ("ip", .str ip),
              ("port", .int DEFAULT_PORT), ("paired_at", .int now)]) f pd
      (device_id_ne_empty rh ip) rfl hpd
    rw [hred]
    refine ⟨rfl, ?_, ?_⟩
    · dsimp only
      rw [hpaired]
      exact dget_dset_self _ _ _
    · intro k hk
      dsimp only
      rw [hpaired, pairedOf_eq f pd hpd]
      exact dget_dset_ne _ _ _ _ hk
  · intro hc
    have h2 : pyEqStr (dget d "code") expected = false := by
      cases hdc : dget d "code" with
      | none => rfl
      | some v =>
        cases v with
        | str s =>
          have hne : ¬ s = expected := by
            intro he
            exact hc (by rw [hdc, he])
          simp [pyEqStr, hne]
        | int n => rfl
        | bool b => rfl
        | none => rfl
        | list l => rfl
        | dict dd => rfl
    have hcond : (pyEqStr (dget d "type") "pairing_request" &&
        pyEqStr (dget d "code") expected) = false := by
      rw [h2, Bool.and_false]
    simp only [handle_incoming_pairing, hcond, Bool.false_eq_true, if_false]

/-- Witness for `responder_pairing_protocol` at a concrete input:
an exact-code request from `alice` at `10.0.0.5` against an empty store,
and a wrong-code request against the same store. -/
theorem responder_pairing_protocol_witness :
    (wfFile .missing ∧
     dget [("type", PyVal.str "pairing_request"), ("code", PyVal.str "4242"),
           ("hostname", PyVal.str "alice")] "hostname" = some (.str "alice") ∧
     dget [("type", PyVal.str "pairing_request"), ("code", PyVal.str "4242"),
           ("hostname", PyVal.str "alice")] "type" = some (.str "pairing_request") ∧
     dget [("type", PyVal.str "pairing_request"), ("code", PyVal.str "4242"),
           ("hostname", PyVal.str "alice")] "code" = some (.str "4242") ∧
     ¬ dget [("type", PyVal.str "pairing_request"), ("code", PyVal.str "9999"),
             ("hostname", PyVal.str "alice")] "code" = some (.str "4242")) ∧
    ((handle_incoming_pairing
        (some (.dict [("type", PyVal.str "pairing_request"),
                      ("code", PyVal.str "4242"),
                      ("hostname", PyVal.str "alice")]))
        "10.0.0.5" "4242" "bob" 1700000000 true .missing).response =
      some (.dict [("type", .str "pairing_confirm"), ("status", .str "success"),
                   ("hostname", .str "bob")]) ∧
     dget (pairedOf (handle_incoming_pairing
        (some (.dict [("type", PyVal.str "pairing_request"),
                      ("code", PyVal.str "4242"),
                      ("hostname", PyVal.str "alice")]))
        "10.0.0.5" "4242" "bob" 1700000000 true .missing).file) "alice@10.0.0.5" =
      some (.dict [("hostname", .str "alice"), ("ip", .str "10.0.0.5"),
                   ("port", .int DEFAULT_PORT), ("paired_at", .int 1700000000)]) ∧
     handle_incoming_pairing
        (some (.dict [("type", PyVal.str "pairing_request"),
                      ("code", PyVal.str "9999"),
                      ("hostname", PyVal.str "alice")]))
        "10.0.0.5" "4242" "bob" 1700000000 true .missing =
       ⟨some (.dict [("type", .str "pairing_confirm"), ("status", .str "failure"),
                     ("reason", .str "Invalid code")]), .missing⟩) := by
  have hok := responder_pairing_protocol
    [("type", PyVal.str "pairing_request"), ("code", PyVal.str "4242"),
     ("hostname", PyVal.str "alice")] "10.0.0.5" "4242" "bob" 1700000000 .missing trivial
  have hbad := responder_pairing_protocol
    [("type", PyVal.str "pairing_request"), ("code", PyVal.str "9999"),
     ("hostname", PyVal.str "alice")] "10.0.0.5" "4242" "bob" 1700000000 .missing trivial
  obtain ⟨hsucc, -⟩ := hok
  obtain ⟨h1, h2, -⟩ := hsucc "alice" rfl rfl rfl
  refine ⟨⟨trivial, rfl, rfl, rfl, by simp [dget]⟩, h1, h2, ?_⟩
  exact hbad.2 (by simp [dget])

/-- **C5.**  Initiator outcome and atomicity: `initiate_pairing` is a
total function of the network environment — every exception
(`ConnectionRefused`, timeouts, malformed JSON, anything else) is caught
and becomes the result `false`.  It returns `true` and persists
`PairedDevice(remoteHostname@targetIp)` with fields `hostname`, `ip`,
`port`, `paired_at` exactly when the decoded response is a dict of type
`pairing_confirm` with status `success`; whenever it returns `false` the
state file is unchanged. -/
theorem initiator_outcome (env : NetOutcome) (ip : String) (port : Int)
    (code : String) (now : Int) (f : StateFile) (hwf : wfFile f) :
    (∀ (rd : Dict) (rh : String),
      env = .response (some (.dict rd)) →
      dget rd "type" = some (.str "pairing_confirm") →
      dget rd "status" = some (.str "success") →
      dget rd "hostname" = some (.str rh) →
      (initiate_pairing env ip port code now true f).1 = true ∧
      dget (pairedOf (initiate_pairing env ip port code now true f).2)
          (rh ++ "@" ++ ip) =
        some (.dict [("hostname", .str rh), ("ip", .str ip),
                     ("port", .int port), ("paired_at", .int now)])) ∧
    (∀ wOk, (initiate_pairing env ip port code now wOk f).1 = true →
      ∃ rd : Dict, env = .response (some (.dict rd)) ∧
        dget rd "type" = some (.str "pairing_confirm") ∧
        dget rd "status" = some (.str "success")) ∧
    (∀ wOk, (initiate_pairing env ip port code now wOk f).1 = false →
      (initiate_pairing env ip port code now wOk f).2 = f) := by
  refine ⟨?_, ?_, ?_⟩
  · intro rd rh henv ht hs hh
    subst henv
    have hcond : (pyEqStr (dget rd "type") "pairing_confirm" &&
        pyEqStr (dget rd "status") "success") = true := by
      rw [pyEqStr_of_eq ht, pyEqStr_of_eq hs]
      rfl
    obtain ⟨pd, hpd⟩ := load_state_pd f hwf
    have hadd := add_paired_device_eq (rh ++ "@" ++ ip)
      (.dict [("hostname", .str rh), ("ip", .str ip),
              ("port", .int port), ("paired_at", .int now)]) true f pd
      (device_id_ne_empty rh ip) rfl hpd
    obtain ⟨_, hpaired, _⟩ := add_paired_device_spec (rh ++ "@" ++ ip)
      (.dict [("hostname", .str rh), ("ip", .str ip),
              ("port", .int port), ("paired_at", .int now)]) f pd
      (device_id_ne_empty rh ip) rfl hpd
    have hred : initiate_pairing (.response (some (.dict rd))) ip port code now true f =
        (true, (add_paired_device (rh ++ "@" ++ ip)
          (.dict [("hostname", .str rh), ("ip", .str ip),
                  ("port", .int port), ("paired_at", .int now)]) true f).2) := by
      simp only [initiate_pairing, hcond, hh, if_true, Option.getD_some, pyStr]
      rw [hadd]
    rw [hred]
    refine ⟨rfl, ?_⟩
    dsimp only
    rw [hpaired]
    exact dget_dset_self _ _ _
  · intro wOk h
    cases env with
    | connectionRefused => simp [initiate_pairing] at h
    | connectTimeout => simp [initiate_pairing] at h
    | readTimeout => simp [initiate_pairing] at h
    | otherError => simp [initiate_pairing] at h
    | response data =>
      cases data with
      | none => simp [initiate_pairing] at h
      | some r =>
        cases r with
        | str s => simp [initiate_pairing] at h
        | int n => simp [initiate_pairing] at h
        | bool b => simp [initiate_pairing] at h
        | none => simp [initiate_pairing] at h
        | list l => simp [initiate_pairing] at h
        | dict rd =>
          by_cases hcnd : (pyEqStr (dget rd "type") "pairing_confirm" &&
              pyEqStr (dget rd "status") "success") = true
          · obtain ⟨h1, h2⟩ := Bool.and_eq_true_iff.mp hcnd
            exact ⟨rd, rfl, pyEqStr_true h1, pyEqStr_true h2⟩
          · exfalso
            simp only [initiate_pairing, if_neg hcnd] at h
            exact Bool.false_ne_true h
  · intro wOk h
    cases env with
    | connectionRefused => rfl
    | connectTimeout => rfl
    | readTimeout => rfl
    | otherError => rfl
    | response data =>
      cases data with
      | none => rfl
      | some r =>
        cases r with
        | str s => rfl
        | int n => rfl
        | bool b => rfl
        | none => rfl
        | list l => rfl
        | dict rd =>
          by_cases hcnd : (pyEqStr (dget rd "type") "pairing_confirm" &&
              pyEqStr (dget rd "status") "success") = true
          · simp only [initiate_pairing, hcnd, if_true] at h ⊢
            rcases hadd : add_paired_device
              (pyStr ((dget rd "hostname").getD (.str "Unknown Device")) ++ "@" ++ ip)
              (.dict [("hostname", (dget rd "hostname").getD (.str "Unknown Device")),
                      ("ip", .str ip), ("port", .int port), ("paired_at", .int now)])
              wOk f with ⟨fst, snd⟩
            rw [hadd] at h
            cases fst with
            | some u => exact Bool.noConfusion h
            | none => rfl
          · simp only [initiate_pairing, if_neg hcnd]

/-- Witness for `initiator_outcome` at a concrete input: a success
response from `bob` at `10.0.0.7`. -/
theorem initiator_outcome_witness :
    (wfFile .missing ∧
     NetOutcome.response (some (.dict [("type", PyVal.str "pairing_confirm"),
       ("status", PyVal.str "success"), ("hostname", PyVal.str "bob")])) =
       NetOutcome.response (some (.dict [("type", PyVal.str "pairing_confirm"),
         ("status", PyVal.str "success"), ("hostname", PyVal.str "bob")])) ∧
     dget [("type", PyVal.str "pairing_confirm"), ("status", PyVal.str "success"),
           ("hostname", PyVal.str "bob")] "type" = some (.str "pairing_confirm") ∧
     dget [("type", PyVal.str "pairing_confirm"), ("status", PyVal.str "success"),
           ("hostname", PyVal.str "bob")] "status" = some (.str "success") ∧
     dget [("type", PyVal.str "pairing_confirm"), ("status", PyVal.str "success"),
           ("hostname", PyVal.str "bob")] "hostname" = some (.str "bob")) ∧
    ((initiate_pairing (.response (some (.dict [("type", PyVal.str "pairing_confirm"),
        ("status", PyVal.str "success"), ("hostname", PyVal.str "bob")])))
        "10.0.0.7" 50309 "4242" 1700000000 true .missing).1 = true ∧
     dget (pairedOf (initiate_pairing (.response (some (.dict
        [("type", PyVal.str "pairing_confirm"), ("status", PyVal.str "success"),
         ("hostname", PyVal.str "bob")])))
        "10.0.0.7" 50309 "4242" 1700000000 true .missing).2) "bob@10.0.0.7" =
       some (.dict [("hostname", .str "bob"), ("ip", .str "10.0.0.7"),
                    ("port", .int 50309), ("paired_at", .int 1700000000)])) := by
  have h := initiator_outcome (.response (some (.dict
      [("type", PyVal.str "pairing_confirm"), ("status", PyVal.str "success"),
       ("hostname", PyVal.str "bob")])))
    "10.0.0.7" 50309 "4242" 1700000000 .missing trivial
  exact ⟨⟨trivial, rfl, rfl, rfl, rfl⟩, h.1 _ "bob" rfl rfl rfl rfl⟩

/-- **C2 counterexample.**  The claim says every 4-digit decimal string
including those with leading zeros (`0000`–`9999`) is a possible output
of `GenerateCode()`.  The canonical `generate_pairing_code` is
`str(random.randint(1000, 9999))`, so no string below `"1000"` can ever
be produced: `"0000"` is not a possible output. -/
theorem pairing_code_no_leading_zero : ¬ possibleCode "0000" := by
  rintro ⟨r, h1, h2, hgen⟩
  unfold generate_pairing_code at hgen
  rw [pyStrNat_four r h1 h2] at hgen
  have hdata : [digitChar (r / 1000), digitChar (r / 100 % 10),
      digitChar (r / 10 % 10), digitChar (r % 10)] =
      ("0000" : String).data := congrArg String.data hgen
  have hzeros : ("0000" : String).data = ['0', '0', '0', '0'] := by decide
  rw [hzeros] at hdata
  have hhead : digitChar (r / 1000) = '0' := (List.cons.inj hdata).1
  exact digitChar_ne_zero (by omega) (by omega) hhead

/-- **C2 (amended).**  Code generation as implemented: the canonical
`generate_pairing_code` renders a uniform `random.randint(1000, 9999)`
value, so it always returns exactly 4 decimal digits but never a leading
zero (codes `0000`–`0999` are impossible); the legacy `oreon_pickup`
variant joins `PAIRING_CODE_LENGTH` independent uniform digits and does
produce leading-zero codes such as `0000`. -/
theorem generate_pairing_code_amended (r : Nat) (h1 : 1000 ≤ r) (h2 : r ≤ 9999) :
    ((generate_pairing_code r).length = 4 ∧
     (∀ c ∈ (generate_pairing_code r).data, c.isDigit = true) ∧
     ¬ (generate_pairing_code r).data.head? = some '0') ∧
    generate_pairing_code_legacy [0, 0, 0, 0] = "0000" := by
  have hexp := pyStrNat_four r h1 h2
  unfold generate_pairing_code
  rw [hexp]
  refine ⟨⟨rfl, ?_, ?_⟩, ?_⟩
  · intro c hc
    have hc' : c = digitChar (r / 1000) ∨ c = digitChar (r / 100 % 10) ∨
        c = digitChar (r / 10 % 10) ∨ c = digitChar (r % 10) := by
      simpa using hc
    rcases hc' with h | h | h | h <;>
      (rw [h]; exact digitChar_isDigit (by omega))
  · intro hh
    have hh' : digitChar (r / 1000) = '0' := by
      simpa using hh
    exact digitChar_ne_zero (by omega) (by omega) hh'
  · decide

/-- Witness for `generate_pairing_code_amended` at `r = 4242`. -/
theorem generate_pairing_code_amended_witness :
    (1000 ≤ 4242 ∧ 4242 ≤ 9999) ∧
    (((generate_pairing_code 4242).length = 4 ∧
      (∀ c ∈ (generate_pairing_code 4242).data, c.isDigit = true) ∧
      ¬ (generate_pairing_code 4242).data.head? = some '0') ∧
     generate_pairing_code_legacy [0, 0, 0, 0] = "0000") :=
  ⟨⟨by omega, by omega⟩,
   generate_pairing_code_amended 4242 (by omega) (by omega)⟩

/-- **C4** (failing input for the framing claim).  Both reads are a
single `recv(1024)`.  For a well-formed `pairing_request` document whose
`hostname` field is 1100 characters long, the handler necessarily parses
at most the first 1024 bytes — a strict prefix of the JSON document (it
ends inside the hostname string literal, so `json.loads` raises and the
responder sends no reply at all, despite a matching code); the code never
reads on until the document is complete. -/
theorem single_recv_truncates :
    (recvOnce ("\x7b\"type\": \"pairing_request\", \"code\": \"4242\", \"hostname\": \"" ++
        String.mk (List.replicate 1100 'a') ++ "\"\x7d")).length = 1024 ∧
    ¬ recvOnce ("\x7b\"type\": \"pairing_request\", \"code\": \"4242\", \"hostname\": \"" ++
        String.mk (List.replicate 1100 'a') ++ "\"\x7d") =
      ("\x7b\"type\": \"pairing_request\", \"code\": \"4242\", \"hostname\": \"" ++
        String.mk (List.replicate 1100 'a') ++ "\"\x7d") := by
  have hlen : ("\x7b\"type\": \"pairing_request\", \"code\": \"4242\", \"hostname\": \"" ++
      String.mk (List.replicate 1100 'a') ++ "\"\x7d").length =
      ("\x7b\"type\": \"pairing_request\", \"code\": \"4242\", \"hostname\": \"" : String).length
        + 1100 + ("\"\x7d" : String).length := by
    rw [String.length_append, String.length_append]
    have hmid : (String.mk (List.replicate 1100 'a')).length = 1100 := by
      show (List.replicate 1100 'a').length = 1100
      exact List.length_replicate 1100 'a'
    omega
  have hbig : 1100 ≤ ("\x7b\"type\": \"pairing_request\", \"code\": \"4242\", \"hostname\": \"" ++
      String.mk (List.replicate 1100 'a') ++ "\"\x7d").length := by
    omega
  have hrecv : ∀ s : String, (recvOnce s).length = min 1024 s.length := by
    intro s
    show (s.data.take 1024).length = min 1024 s.data.length
    exact List.length_take 1024 s.data
  constructor
  · rw [hrecv]
    omega
  · intro h
    have := congrArg String.length h
    rw [hrecv] at this
    omega

/-- **C8** (failing input for the shared-handle claim).  With advertising
active and registered on zeroconf handle `0`, `stop_discovery` closes
that handle unconditionally, and `start_discovery` (called while not yet
browsing) closes and replaces it with a fresh handle `1` — in both cases
the handle the advertisement lives on is destroyed while advertising is
still active, instead of being reference-counted. -/
theorem discovery_stop_destroys_shared_handle :
    ((stop_discovery ⟨some 0, true, true⟩).advertised = true ∧
     (stop_discovery ⟨some 0, true, true⟩).zeroconf = Option.none) ∧
    ((start_discovery 1 ⟨some 0, false, true⟩).advertised = true ∧
     ¬ (start_discovery 1 ⟨some 0, false, true⟩).zeroconf = some 0) := by
  refine ⟨⟨rfl, rfl⟩, rfl, by simp [start_discovery]⟩

/-- **C9 counterexample.**  Starting a responder session while the prior
session's worker is alive joins it with a bounded 2-second timeout; when
the old worker does not exit within that bound (`exits = false`, e.g.
because its handler is blocked in a 10-second `recv`), the new worker is
started anyway and two workers run concurrently. -/
theorem second_session_overlap_counterexample :
    activeWorkers (start_pairing_service false ⟨true, true, 0, false, true⟩) = 2 := rfl

/-- **C9 (amended).**  Session exclusivity as implemented: starting a
session while a prior worker is alive first runs the stop sequence (stop
flag set, socket force-closed, 2-second bounded join, reference
dropped); provided the prior worker exits within the join bound, at most
one worker is ever active and the new session starts with a cleared stop
flag — but the join is bounded, so a worker that overruns it keeps
running concurrently (see the counterexample). -/
theorem session_exclusivity_amended (s : PairingSvc) (hz : s.zombies = 0) :
    ((s.threadRef && s.refAlive) = true →
      (stop_pairing_service true s).stopFlag = true ∧
      (stop_pairing_service true s).socketOpen = false ∧
      activeWorkers (stop_pairing_service true s) = 0) ∧
    activeWorkers (start_pairing_service true s) = 1 ∧
    (start_pairing_service true s).stopFlag = false := by
  obtain ⟨tr, ra, z, sf, so⟩ := s
  simp only [PairingSvc.zombies] at hz
  subst hz
  cases tr <;> cases ra <;>
    simp [start_pairing_service, stop_pairing_service, activeWorkers]

/-- Witness for `session_exclusivity_amended` at a concrete state with a
live prior worker. -/
theorem session_exclusivity_amended_witness :
    (PairingSvc.mk true true 0 false true).zombies = 0 ∧
    (((true && true) = true →
      (stop_pairing_service true ⟨true, true, 0, false, true⟩).stopFlag = true ∧
      (stop_pairing_service true ⟨true, true, 0, false, true⟩).socketOpen = false ∧
      activeWorkers (stop_pairing_service true ⟨true, true, 0, false, true⟩) = 0) ∧
     activeWorkers (start_pairing_service true ⟨true, true, 0, false, true⟩) = 1 ∧
     (start_pairing_service true ⟨true, true, 0, false, true⟩).stopFlag = false) :=
  ⟨rfl, session_exclusivity_amended ⟨true, true, 0, false, true⟩ rfl⟩

end Pickup
